import Mathlib

/-!
Verification of the address-autocomplete widget
(`src/components/AddressAutocomplete.tsx`).

The component's logic is shallowly embedded: React state updates become pure
state transformers over an explicit `ComponentState`, the Google Places
callbacks become functions over explicit provider responses, and the SWR
request cache (an external dependency, not part of this repository's sources)
is modelled from the spec's description of its last-key-wins semantics.
JavaScript numbers only ever carry pass-through coordinate values here, so
they are modelled as `Int`.
-/

/-- The `AddressType` record (source lines 6-16). -/
structure AddressType where
  address1 : String
  address2 : String
  formattedAddress : String
  city : String
  region : String
  postalCode : String
  country : String
  lat : Int
  lng : Int
deriving Repr, DecidableEq

/-- A `google.maps.GeocoderAddressComponent`: long name, short name and the
list of type tags. -/
structure GeocoderAddressComponent where
  long_name : String
  short_name : String
  types : List String
deriving Repr, DecidableEq

/-- The `'long_name' | 'short_name'` format selector of
`getAddressComponent` (source line 48). -/
inductive NameFormat where
  | long_name
  | short_name
deriving Repr, DecidableEq

/-- `getAddressComponent` (source lines 45-53): returns the requested form of
the first component carrying the type tag, and the empty string when the
component list is `undefined` or has no such component. -/
def getAddressComponent (components : Option (List GeocoderAddressComponent))
    (type : String) (format : NameFormat) : String :=
  match components with
  | none => ""
  | some cs =>
    match cs.find? (fun c => c.types.contains type) with
    | some c =>
      match format with
      | NameFormat.long_name => c.long_name
      | NameFormat.short_name => c.short_name
    | none => ""

/-- The `emptyAddress` constant (source lines 55-65). -/
def emptyAddress : AddressType :=
  { address1 := ""
    address2 := ""
    formattedAddress := ""
    city := ""
    region := ""
    postalCode := ""
    country := ""
    lat := 0
    lng := 0 }

/-- The part of a `GooglePlaceResult` the detail fetcher reads: the component
list (possibly `undefined`), `formatted_address` (possibly `undefined`) and
the geometry centroid (possibly `undefined`). -/
structure GooglePlaceResult where
  address_components : Option (List GeocoderAddressComponent)
  formatted_address : Option String
  geometry_location : Option (Int × Int)
deriving Repr, DecidableEq

/-- The address construction inside the detail `useSWR` fetcher (source lines
172-183). `formatted_address || ''` and `lat() || 0` / `lng() || 0` become
defaults for the missing case. -/
def buildAddress (result : GooglePlaceResult) : AddressType :=
  { address1 :=
      getAddressComponent result.address_components "street_number" NameFormat.short_name
        ++ " "
        ++ getAddressComponent result.address_components "route" NameFormat.short_name
    address2 := ""
    formattedAddress := result.formatted_address.getD ""
    city := getAddressComponent result.address_components "locality" NameFormat.long_name
    region := getAddressComponent result.address_components "administrative_area_level_1" NameFormat.short_name
    postalCode := getAddressComponent result.address_components "postal_code" NameFormat.short_name
    country := getAddressComponent result.address_components "country" NameFormat.long_name
    lat :=
      match result.geometry_location with
      | some p => p.1
      | none => 0
    lng :=
      match result.geometry_location with
      | some p => p.2
      | none => 0 }

/-- `google.maps.places.PlacesServiceStatus`, restricted to the values the
code distinguishes: `OK` versus everything else. -/
inductive PlacesServiceStatus where
  | OK
  | ZERO_RESULTS
  | UNKNOWN_ERROR
deriving Repr, DecidableEq

/-- `fetchPlaceDetails` (source lines 151-166): the `getDetails` callback
rejects unless the status is `OK` and a result object is present. -/
def fetchPlaceDetails (status : PlacesServiceStatus)
    (result : Option GooglePlaceResult) : Except String GooglePlaceResult :=
  if status = PlacesServiceStatus.OK then
    match result with
    | some r => Except.ok r
    | none => Except.error "Failed to fetch place details"
  else Except.error "Failed to fetch place details"

/-- The detail `useSWR` fetcher (source lines 170-185): await
`fetchPlaceDetails`, then build the address record. A rejection propagates. -/
def detailFetcher (status : PlacesServiceStatus)
    (result : Option GooglePlaceResult) : Except String AddressType :=
  match fetchPlaceDetails status result with
  | Except.ok r => Except.ok (buildAddress r)
  | Except.error e => Except.error e

/-- Boolean success test for `Except`. -/
def exceptOk {ε α : Type} : Except ε α → Bool
  | Except.ok _ => true
  | Except.error _ => false

example : buildAddress ⟨some [], none, none⟩ = { emptyAddress with address1 := " " } := by decide
example : exceptOk (detailFetcher PlacesServiceStatus.ZERO_RESULTS none) = false := by decide

/-- A `google.maps.places.AutocompletePrediction` as read by the suggestion
fetcher: `place_id` and `description`. -/
structure PlacePrediction where
  place_id : String
  description : String
deriving Repr, DecidableEq

/-- The suggestion shape the component builds from each prediction (source
lines 314-320): `placeId` and `place` both copy `place_id`, `text` flattens
`text.text` from `description`. -/
structure Suggestion where
  placeId : String
  place : String
  text : String
deriving Repr, DecidableEq

/-- The suggestion `useSWR` fetcher's mapping over `predictions.predictions`
(source lines 313-321). -/
def mapPredictions (ps : List PlacePrediction) : List Suggestion :=
  ps.map (fun p => { placeId := p.place_id, place := p.place_id, text := p.description })

/-- The pair the component destructures from the suggestion `useSWR` call
(source line 308): only `data` and `isLoading`; the hook's `error` field is
never read. -/
structure SuggestionHookView where
  data : Option (List Suggestion)
  isLoading : Bool
deriving Repr, DecidableEq

/-- Modelled from the spec: how a settled SWR request surfaces through the
fields the component reads (the `swr` dependency is not part of this
repository's sources). A fulfilled fetcher yields `data`; a rejected fetcher
leaves `data` unset and records the failure only in the `error` field, which
`SuggestionHookView` does not carry because source line 308 never destructures
it. -/
def suggestionView (outcome : Except String (List PlacePrediction)) : SuggestionHookView :=
  match outcome with
  | Except.ok ps => { data := some (mapPredictions ps), isLoading := false }
  | Except.error _ => { data := none, isLoading := false }

/-- `const predictions = data?.suggestions || []` (source line 328). -/
def predictionsOf (data : Option (List Suggestion)) : List Suggestion :=
  data.getD []

/-- What the suggestion dropdown renders (source lines 370-407): a loader,
the prediction list, or a centered message. -/
inductive SuggestionRender where
  | loading
  | list (items : List Suggestion)
  | message (text : String)
deriving Repr, DecidableEq

/-- The dropdown rendering logic (source lines 373-407): loader while
loading, otherwise the prediction rows, with a message when
`predictions.length === 0`. -/
def renderSuggestionPanel (isLoading : Bool) (preds : List Suggestion)
    (searchInput : String) : SuggestionRender :=
  if isLoading then SuggestionRender.loading
  else if preds.isEmpty then
    SuggestionRender.message
      (if searchInput = "" then "Please enter an address" else "No address found")
  else SuggestionRender.list preds

/-- Everything the component derives from a settled suggestion request: the
`predictions` list and the rendered dropdown content. -/
def observedPanel (outcome : Except String (List PlacePrediction))
    (searchInput : String) : List Suggestion × SuggestionRender :=
  let v := suggestionView outcome
  let preds := predictionsOf v.data
  (preds, renderSuggestionPanel v.isLoading preds searchInput)

/-- The result list of a reverse-geocode call; `handleLocationDetect` only
reads `results[0].place_id`. -/
structure GeocodeResult where
  place_id : String
deriving Repr, DecidableEq

/-- The possible outcomes of the `navigator.geolocation.getCurrentPosition`
call inside `handleLocationDetect` (source lines 118-149): geolocation
unsupported (early return), the error callback (denied / failed position),
or the success callback with coordinates followed by the geocoder promise
settling. -/
inductive GeolocationOutcome where
  | unsupported
  | positionError
  | positionSuccess (lat lng : Int) (geocode : Except String (List GeocodeResult))
deriving Repr

/-- The widget state owned by `AddressAutoComplete` together with the
host-owned `address`/`searchInput` pair it mutates through the provided
setters (source lines 95-112). -/
structure ComponentState where
  address : AddressType
  searchInput : String
  selectedPlaceId : String
  isLocating : Bool
  isOpen : Bool
deriving Repr, DecidableEq

/-- `handleLocationDetect` (source lines 118-149) as a state transformer over
the outcome of the position request: unsupported geolocation returns before
`setIsLocating(true)`; the error callback clears `isLocating`; the success
callback geocodes, adopts `results[0].place_id` when present, and clears
`isLocating` in both the `catch` and the `finally` paths. -/
def handleLocationDetect (outcome : GeolocationOutcome)
    (s : ComponentState) : ComponentState :=
  match outcome with
  | GeolocationOutcome.unsupported => s
  | GeolocationOutcome.positionError => { s with isLocating := false }
  | GeolocationOutcome.positionSuccess _ _ geocode =>
    match geocode with
    | Except.error _ => { s with isLocating := false }
    | Except.ok results =>
      match results.head? with
      | some r => { s with selectedPlaceId := r.place_id, isLocating := false }
      | none => { s with isLocating := false }

/-- The committed-branch input's `onChange` handler (source lines 208-214):
store the text, and when it became empty also clear the place id and reset
the address. -/
def committedOnChange (value : String) (s : ComponentState) : ComponentState :=
  if value = "" then
    { s with searchInput := value, selectedPlaceId := "", address := emptyAddress }
  else { s with searchInput := value }

/-- The committed-branch input's `onFocus` handler (source lines 215-220). -/
def committedOnFocus (s : ComponentState) : ComponentState :=
  if s.searchInput = "" then
    { s with searchInput := s.address.formattedAddress, isOpen := true }
  else { s with isOpen := true }

/-- The clear button's `onClick` handler (source lines 224-228). -/
def clearButtonClick (s : ComponentState) : ComponentState :=
  { s with selectedPlaceId := "", address := emptyAddress, searchInput := "" }

/-- A prediction row's `onClick` handler (source lines 389-393): adopt the
suggestion's text as search input, its `place` as selected id, close the
list. -/
def predictionOnClick (sg : Suggestion) (s : ComponentState) : ComponentState :=
  { s with searchInput := sg.text, selectedPlaceId := sg.place, isOpen := false }

/-- The `useEffect` at source lines 191-195: `if (data?.address)
setAddress(data.address)`. -/
def setAddressEffect (data : Option AddressType) (s : ComponentState) : ComponentState :=
  match data with
  | some a => { s with address := a }
  | none => s

/-- The branch chosen by `address.formattedAddress ? ... : ...` (source line
199): the committed display branch is rendered exactly when
`formattedAddress` is non-empty. -/
def inCommittedBranch (s : ComponentState) : Bool :=
  s.address.formattedAddress != ""

/-- The committed-branch input's displayed value, `searchInput ||
address?.formattedAddress` (source line 207). -/
def committedDisplayValue (s : ComponentState) : String :=
  if s.searchInput = "" then s.address.formattedAddress else s.searchInput

/-- The user/network events that can reach the component's handlers; each
constructor names the source handler it drives. -/
inductive ComponentEvent where
  | committedInputChange (value : String)
  | committedFocus
  | clearClick
  | searchInputChange (value : String)
  | inputFocus
  | inputBlurTimeout
  | escapeKey
  | predictionClick (sg : Suggestion)
  | detailResolved (status : PlacesServiceStatus) (result : Option GooglePlaceResult)
  | locationDetect (outcome : GeolocationOutcome)
deriving Repr

/-- One event step of the widget. The second component is the argument of the
`setAddress` call the step performs, when any: the only call sites are the
committed-branch clear on empty text (line 212), the clear button (line 226)
and the detail-resolution effect (line 193). -/
def step (s : ComponentState) : ComponentEvent → ComponentState × Option AddressType
  | ComponentEvent.committedInputChange v =>
    (committedOnChange v s, if v = "" then some emptyAddress else none)
  | ComponentEvent.committedFocus => (committedOnFocus s, none)
  | ComponentEvent.clearClick => (clearButtonClick s, some emptyAddress)
  | ComponentEvent.searchInputChange v => ({ s with searchInput := v }, none)
  | ComponentEvent.inputFocus => ({ s with isOpen := true }, none)
  | ComponentEvent.inputBlurTimeout => ({ s with isOpen := false }, none)
  | ComponentEvent.escapeKey => ({ s with isOpen := false }, none)
  | ComponentEvent.predictionClick sg => (predictionOnClick sg s, none)
  | ComponentEvent.detailResolved status result =>
    match detailFetcher status result with
    | Except.ok a => (setAddressEffect (some a) s, some a)
    | Except.error _ => (s, none)
  | ComponentEvent.locationDetect o => (handleLocationDetect o s, none)

/-- Run a list of events, collecting every address passed to `setAddress`. -/
def runEmits : ComponentState → List ComponentEvent → ComponentState × List AddressType
  | s, [] => (s, [])
  | s, e :: es =>
    let p := step s e
    let q := runEmits p.1 es
    (q.1, p.2.toList ++ q.2)

/-- `useDebounce`'s effective delay, `delay || 500` (source line 88): an
absent or zero (falsy) delay becomes 500. -/
def jsOrDefault (delay : Option Nat) : Nat :=
  match delay with
  | none => 500
  | some d => if d = 0 then 500 else d

/-- The timer protocol of `useDebounce` (source lines 84-93) over a timed
sequence of input values: each arrival schedules `setDebouncedValue` after
the delay and the cleanup cancels the pending timer, so a value is emitted
exactly when no further value arrives before its timer fires (the final
value always is). -/
def debounceEmissions (d : Nat) : List (Nat × String) → List String
  | [] => []
  | [(_, v)] => [v]
  | (t1, v1) :: (t2, v2) :: rest =>
    if t1 + d ≤ t2 then v1 :: debounceEmissions d ((t2, v2) :: rest)
    else debounceEmissions d ((t2, v2) :: rest)

/-- All arrivals fall inside the quiet period: each value is followed within
less than `d` by the next. -/
def withinQuiet (d : Nat) : List (Nat × String) → Bool
  | (t1, _) :: (t2, v2) :: rest =>
    decide (t2 < t1 + d) && withinQuiet d ((t2, v2) :: rest)
  | _ => true

/-- The value of the last arrival, if any. -/
def lastValue : List (Nat × String) → Option String
  | [] => none
  | [(_, v)] => some v
  | _ :: x :: rest => lastValue (x :: rest)

/-- The SWR key of the suggestion hook,
`debouncedSearchInput ? debouncedSearchInput : null` (source line 309). -/
def suggestionSWRKey (debouncedSearchInput : String) : Option String :=
  if debouncedSearchInput = "" then none else some debouncedSearchInput

/-- The SWR key of the detail hook,
`selectedPlaceId === "" ? null : selectedPlaceId` (source line 169). -/
def detailSWRKey (selectedPlaceId : String) : Option String :=
  if selectedPlaceId = "" then none else some selectedPlaceId

/-- Modelled from the spec: the shared state of one SWR resolver (the `swr`
dependency is not part of this repository's sources) — the currently active
request key and the applied data. -/
structure SWRState (κ δ : Type) where
  activeKey : Option κ
  data : Option δ
deriving Repr, DecidableEq

/-- An event seen by an SWR resolver: the component changes the key, or a
network response arrives tagged with the key it was requested under. -/
inductive SWREvent (κ δ : Type) where
  | setKey (k : Option κ)
  | response (k : κ) (d : δ)
deriving Repr

/-- Modelled from the spec: SWR's last-key-wins response handling — a
response is applied to the shared data only when its request key equals the
currently active key; responses tagged with a superseded key leave the state
untouched. -/
def swrStep {κ δ : Type} [DecidableEq κ] (s : SWRState κ δ) :
    SWREvent κ δ → SWRState κ δ
  | SWREvent.setKey k => { s with activeKey := k }
  | SWREvent.response k d =>
    if s.activeKey = some k then { s with data := some d } else s

/-- Run an SWR resolver over a list of events. -/
def swrRun {κ δ : Type} [DecidableEq κ] (s : SWRState κ δ)
    (es : List (SWREvent κ δ)) : SWRState κ δ :=
  es.foldl swrStep s

/-- A bootstrap promise as cached by the module-level `googleMapsPromise`
variable (source line 22): identified by the `apiKey` it was created with and
by whether it has (ever, later) settled rejected. `loadGoogleMapsScript`
never inspects either. -/
structure BootstrapPromise where
  apiKey : String
  rejected : Bool
deriving Repr, DecidableEq

/-- `loadGoogleMapsScript` (source lines 24-43) acting on the module-level
cache: return the cached promise when present, otherwise create one for the
given key and cache it. The promise executor (script element, `onload`,
`onerror`) is abstracted away; no path ever clears the cache. -/
def loadGoogleMapsScript (apiKey : String) (cache : Option BootstrapPromise) :
    BootstrapPromise × Option BootstrapPromise :=
  match cache with
  | some p => (p, some p)
  | none => (⟨apiKey, false⟩, some ⟨apiKey, false⟩)

/-- The first component carrying a type tag, as `getAddressComponent` looks
it up with `find`. -/
def componentLookup (cs : Option (List GeocoderAddressComponent))
    (type : String) : Option GeocoderAddressComponent :=
  (cs.getD []).find? (fun c => c.types.contains type)

/-- Whether any component carries the given type tag. -/
def hasComponent (cs : Option (List GeocoderAddressComponent))
    (type : String) : Bool :=
  (cs.getD []).any (fun c => c.types.contains type)

/-- The select-then-resolve flow: the prediction row's `onClick` followed by
a successful detail resolution landing through the `setAddress` effect. -/
def selectAndResolve (sg : Suggestion) (a : AddressType)
    (s : ComponentState) : ComponentState :=
  setAddressEffect (some a) (predictionOnClick sg s)

/-! ## Helper lemmas -/

/-- `getAddressComponent` factored through `componentLookup`. -/
lemma getAddressComponent_eq_lookup (cs : Option (List GeocoderAddressComponent))
    (type : String) (format : NameFormat) :
    getAddressComponent cs type format =
      match componentLookup cs type with
      | some c =>
        match format with
        | NameFormat.long_name => c.long_name
        | NameFormat.short_name => c.short_name
      | none => "" := by
  cases cs with
  | none => rfl
  | some l => rfl

/-- When no component carries the tag, the lookup is empty. -/
lemma componentLookup_eq_none (cs : Option (List GeocoderAddressComponent))
    (type : String) (h : hasComponent cs type = false) :
    componentLookup cs type = none := by
  unfold componentLookup
  rw [List.find?_eq_none]
  intro x hx hpx
  have ht : (cs.getD []).any (fun c => c.types.contains type) = true :=
    List.any_eq_true.mpr ⟨x, hx, hpx⟩
  unfold hasComponent at h
  rw [h] at ht
  exact Bool.false_ne_true ht

/-- A component type absent from the response extracts as the empty string. -/
lemma getAddressComponent_missing (cs : Option (List GeocoderAddressComponent))
    (type : String) (format : NameFormat) (h : hasComponent cs type = false) :
    getAddressComponent cs type format = "" := by
  rw [getAddressComponent_eq_lookup, componentLookup_eq_none cs type h]

/-! ## Claims -/

/-- C8: clearing the committed input entirely (its `onChange` with empty
text) or pressing the clear control always resets the committed address to
the canonical empty record, the selected place id to the empty string, and
the search text to empty. -/
theorem clear_resets_state (s : ComponentState) :
    (committedOnChange "" s).address = emptyAddress ∧
    (committedOnChange "" s).selectedPlaceId = "" ∧
    (committedOnChange "" s).searchInput = "" ∧
    (clearButtonClick s).address = emptyAddress ∧
    (clearButtonClick s).selectedPlaceId = "" ∧
    (clearButtonClick s).searchInput = "" := by
  refine ⟨?_, ?_, ?_, rfl, rfl, rfl⟩ <;> simp [committedOnChange]

/-- C10: `loadGoogleMapsScript` is memoized independently of its argument —
a cached promise (whatever key it was created with and even if it has
settled rejected) is returned unchanged by every later call, so a second
call with a different `apiKey` receives the first call's promise and a
failed bootstrap is never retried. -/
theorem load_script_memoized :
    (∀ (p : BootstrapPromise) (k : String),
      loadGoogleMapsScript k (some p) = (p, some p)) ∧
    (∀ (k1 k2 : String),
      (loadGoogleMapsScript k2 (loadGoogleMapsScript k1 none).2).1 =
        (loadGoogleMapsScript k1 none).1) ∧
    (∀ (k1 k2 : String),
      loadGoogleMapsScript k2 (some ⟨k1, true⟩) = (⟨k1, true⟩, some ⟨k1, true⟩)) :=
  ⟨fun _ _ => rfl, fun _ _ => rfl, fun _ _ => rfl⟩

/-- C9: every exit path of `handleLocationDetect` leaves `isLocating` false
(the handler is only reachable while the button is enabled, i.e. with
`isLocating = false`, and every callback path clears it), and the
permission-denied path changes neither the committed address, nor the open
flag, nor the search text. -/
theorem locating_cleared_all_paths (s : ComponentState) (o : GeolocationOutcome)
    (h : s.isLocating = false) :
    (handleLocationDetect o s).isLocating = false ∧
    (handleLocationDetect GeolocationOutcome.positionError s).address = s.address ∧
    (handleLocationDetect GeolocationOutcome.positionError s).isOpen = s.isOpen ∧
    (handleLocationDetect GeolocationOutcome.positionError s).searchInput = s.searchInput := by
  refine ⟨?_, rfl, rfl, rfl⟩
  cases o with
  | unsupported => simpa [handleLocationDetect] using h
  | positionError => rfl
  | positionSuccess la ln g =>
    cases g with
    | error e => rfl
    | ok results =>
      cases results with
      | nil => rfl
      | cons r rs => rfl

/-- C9 witness: concrete runs through the geocoder-throw path and the
permission-denied path. -/
theorem locating_cleared_all_paths_witness :
    (handleLocationDetect
      (GeolocationOutcome.positionSuccess 1 2 (Except.error "geocode failed"))
      ⟨emptyAddress, "abc", "", false, false⟩).isLocating = false ∧
    (handleLocationDetect GeolocationOutcome.positionError
      ⟨emptyAddress, "abc", "", false, false⟩).address = emptyAddress :=
  ⟨(locating_cleared_all_paths ⟨emptyAddress, "abc", "", false, false⟩
      (GeolocationOutcome.positionSuccess 1 2 (Except.error "geocode failed")) rfl).1,
   (locating_cleared_all_paths ⟨emptyAddress, "abc", "", false, false⟩
      GeolocationOutcome.positionError rfl).2.1⟩

/-- C6: when the detail resolution fails (`fetchPlaceDetails` rejects, i.e.
non-OK status or missing result), the step leaves the whole state unchanged,
commits nothing, and in particular the committed/suggesting branch choice is
untouched. -/
theorem detail_failure_no_commit (s : ComponentState) (status : PlacesServiceStatus)
    (result : Option GooglePlaceResult)
    (h : exceptOk (detailFetcher status result) = false) :
    step s (ComponentEvent.detailResolved status result) = (s, none) ∧
    inCommittedBranch (step s (ComponentEvent.detailResolved status result)).1 =
      inCommittedBranch s := by
  have hd : ∃ e, detailFetcher status result = Except.error e := by
    cases hde : detailFetcher status result with
    | ok a => rw [hde] at h; simp [exceptOk] at h
    | error e => exact ⟨e, rfl⟩
  obtain ⟨e, he⟩ := hd
  constructor
  · simp [step, he]
  · simp [step, he]

/-- C6 witness: a concrete rejected detail lookup in a suggesting state. -/
theorem detail_failure_no_commit_witness :
    exceptOk (detailFetcher PlacesServiceStatus.ZERO_RESULTS none) = false ∧
    step ⟨emptyAddress, "query", "pid", false, true⟩
      (ComponentEvent.detailResolved PlacesServiceStatus.ZERO_RESULTS none) =
      (⟨emptyAddress, "query", "pid", false, true⟩, none) :=
  ⟨by decide,
   (detail_failure_no_commit ⟨emptyAddress, "query", "pid", false, true⟩
      PlacesServiceStatus.ZERO_RESULTS none (by decide)).1⟩

/-- C4 counterexample: after selecting a suggestion whose label differs from
the resolved record's `formattedAddress` (the usual case — the label is the
prediction's `description`), the widget is in the committed branch but the
displayed text is the label, not `formattedAddress`. -/
theorem commit_display_cex :
    inCommittedBranch (selectAndResolve ⟨"pid1", "pid1", "1600 Amphitheatre Pkwy"⟩
      { emptyAddress with
          formattedAddress := "1600 Amphitheatre Parkway, Mountain View, CA 94043, USA"
          city := "Mountain View" }
      ⟨emptyAddress, "1600 Amphi", "", false, true⟩) = true ∧
    committedDisplayValue (selectAndResolve ⟨"pid1", "pid1", "1600 Amphitheatre Pkwy"⟩
      { emptyAddress with
          formattedAddress := "1600 Amphitheatre Parkway, Mountain View, CA 94043, USA"
          city := "Mountain View" }
      ⟨emptyAddress, "1600 Amphi", "", false, true⟩) ≠
      (selectAndResolve ⟨"pid1", "pid1", "1600 Amphitheatre Pkwy"⟩
        { emptyAddress with
            formattedAddress := "1600 Amphitheatre Parkway, Mountain View, CA 94043, USA"
            city := "Mountain View" }
        ⟨emptyAddress, "1600 Amphi", "", false, true⟩).address.formattedAddress := by
  decide

/-- C4 (amended): selecting a candidate from the open list and resolving its
details successfully closes the list, commits the resolved address (entering
the committed display branch whenever its `formattedAddress` is non-empty),
and displays the selected candidate's label as the search text;
`formattedAddress` is displayed only as a fallback when the label is the
empty string. -/
theorem select_resolve_committed (sg : Suggestion) (a : AddressType)
    (s : ComponentState) (ha : a.formattedAddress ≠ "") :
    (selectAndResolve sg a s).address = a ∧
    (selectAndResolve sg a s).selectedPlaceId = sg.place ∧
    (selectAndResolve sg a s).isOpen = false ∧
    inCommittedBranch (selectAndResolve sg a s) = true ∧
    committedDisplayValue (selectAndResolve sg a s) =
      (if sg.text = "" then a.formattedAddress else sg.text) := by
  refine ⟨rfl, rfl, rfl, ?_, rfl⟩
  simp [inCommittedBranch, selectAndResolve, setAddressEffect, predictionOnClick,
    bne_iff_ne, ha]

/-- C4 witness: a concrete selection with a non-empty formatted address. -/
theorem select_resolve_committed_witness :
    ({ emptyAddress with formattedAddress := "X, Y" } : AddressType).formattedAddress ≠ "" ∧
    committedDisplayValue (selectAndResolve ⟨"p", "p", "T"⟩
        { emptyAddress with formattedAddress := "X, Y" }
        ⟨emptyAddress, "q", "", false, true⟩) =
      (if ("T" : String) = "" then
        ({ emptyAddress with formattedAddress := "X, Y" } : AddressType).formattedAddress
      else "T") :=
  ⟨by decide,
   (select_resolve_committed ⟨"p", "p", "T"⟩
      { emptyAddress with formattedAddress := "X, Y" }
      ⟨emptyAddress, "q", "", false, true⟩ (by decide)).2.2.2.2⟩

/-- C2 counterexample: a rejected suggestion lookup produces exactly the same
observable component state (the `predictions` list and the rendered dropdown)
as a fulfilled lookup returning zero predictions — both show "No address
found". -/
theorem suggestion_failure_cex :
    observedPanel (Except.error "network failure") "xyz" =
      observedPanel (Except.ok []) "xyz" ∧
    (observedPanel (Except.error "network failure") "xyz").2 =
      SuggestionRender.message "No address found" := by
  decide

/-- C2 (amended): a failed suggestion lookup surfaces to the component as an
empty candidate list, and — because the component destructures only `data`
and `isLoading` from the hook, never `error` — its observable state is
identical to that of a successful lookup returning zero predictions; no
distinguishable error state reaches the caller. -/
theorem suggestion_failure_matches_empty (msg searchInput : String) :
    (observedPanel (Except.error msg) searchInput).1 = [] ∧
    observedPanel (Except.error msg) searchInput =
      observedPanel (Except.ok []) searchInput :=
  ⟨rfl, rfl⟩

/-- C3 counterexample: a successful detail response with no address
components yields `address1 = " "` (a single space, from the unconditional
`street_number + ' ' + route` concatenation), not the empty string. -/
theorem buildAddress_blank_cex :
    (buildAddress ⟨some [], none, none⟩).address1 = " " ∧
    (buildAddress ⟨some [], none, none⟩).address1 ≠ "" := by
  decide

/-- C3 (amended): each address field maps from the stated component and each
missing component yields the empty string (or 0 for coordinates) — except
that `address1` joins the street-number and route extracts with a literal
space, so with both components missing it equals `" "` (and a lone extract
keeps a stray space). -/
theorem buildAddress_component_mapping (r : GooglePlaceResult) :
    (buildAddress r).address1 =
      getAddressComponent r.address_components "street_number" NameFormat.short_name
        ++ " "
        ++ getAddressComponent r.address_components "route" NameFormat.short_name ∧
    (buildAddress r).address2 = "" ∧
    (buildAddress r).formattedAddress = r.formatted_address.getD "" ∧
    (∀ c, componentLookup r.address_components "locality" = some c →
      (buildAddress r).city = c.long_name) ∧
    (hasComponent r.address_components "locality" = false →
      (buildAddress r).city = "") ∧
    (∀ c, componentLookup r.address_components "administrative_area_level_1" = some c →
      (buildAddress r).region = c.short_name) ∧
    (hasComponent r.address_components "administrative_area_level_1" = false →
      (buildAddress r).region = "") ∧
    (∀ c, componentLookup r.address_components "postal_code" = some c →
      (buildAddress r).postalCode = c.short_name) ∧
    (hasComponent r.address_components "postal_code" = false →
      (buildAddress r).postalCode = "") ∧
    (∀ c, componentLookup r.address_components "country" = some c →
      (buildAddress r).country = c.long_name) ∧
    (hasComponent r.address_components "country" = false →
      (buildAddress r).country = "") ∧
    (hasComponent r.address_components "street_number" = false →
      hasComponent r.address_components "route" = false →
      (buildAddress r).address1 = " ") ∧
    (r.geometry_location = none →
      (buildAddress r).lat = 0 ∧ (buildAddress r).lng = 0) ∧
    (∀ la ln, r.geometry_location = some (la, ln) →
      (buildAddress r).lat = la ∧ (buildAddress r).lng = ln) := by
  refine ⟨rfl, rfl, rfl, ?_, ?_, ?_, ?_, ?_, ?_, ?_, ?_, ?_, ?_, ?_⟩
  · intro c hc
    simp [buildAddress, getAddressComponent_eq_lookup, hc]
  · intro h
    simp [buildAddress, getAddressComponent_missing _ _ _ h]
  · intro c hc
    simp [buildAddress, getAddressComponent_eq_lookup, hc]
  · intro h
    simp [buildAddress, getAddressComponent_missing _ _ _ h]
  · intro c hc
    simp [buildAddress, getAddressComponent_eq_lookup, hc]
  · intro h
    simp [buildAddress, getAddressComponent_missing _ _ _ h]
  · intro c hc
    simp [buildAddress, getAddressComponent_eq_lookup, hc]
  · intro h
    simp [buildAddress, getAddressComponent_missing _ _ _ h]
  · intro h1 h2
    simp [buildAddress, getAddressComponent_missing _ _ _ h1,
      getAddressComponent_missing _ _ _ h2]
  · intro h
    simp [buildAddress, h]
  · intro la ln h
    simp [buildAddress, h]

/-- C3 witness: a response carrying only a country component and a geometry
centroid — the present component maps through, the missing ones default. -/
theorem buildAddress_component_mapping_witness :
    componentLookup (some [⟨"United States", "US", ["country"]⟩]) "country" =
      some ⟨"United States", "US", ["country"]⟩ ∧
    hasComponent (some [⟨"United States", "US", ["country"]⟩]) "locality" = false ∧
    (buildAddress ⟨some [⟨"United States", "US", ["country"]⟩], some "USA",
      some (37, 122)⟩).country = "United States" ∧
    (buildAddress ⟨some [⟨"United States", "US", ["country"]⟩], some "USA",
      some (37, 122)⟩).city = "" ∧
    (buildAddress ⟨some [⟨"United States", "US", ["country"]⟩], some "USA",
      some (37, 122)⟩).lat = 37 := by
  obtain ⟨a1, a2, a3, cityF, cityM, regF, regM, posF, posM, couF, couM, blank, geoN, geoS⟩ :=
    buildAddress_component_mapping ⟨some [⟨"United States", "US", ["country"]⟩],
      some "USA", some (37, 122)⟩
  refine ⟨by decide, by decide, ?_, ?_, ?_⟩
  · exact couF ⟨"United States", "US", ["country"]⟩ (by decide)
  · exact cityM (by decide)
  · exact (geoS 37 122 rfl).1

/-- C1: for every resolver — whatever data type its responses carry, which
covers both the suggestion lookup (keyed by the debounced query, carrying
the suggestion list) and the detail lookup (keyed by the selected
identifier, carrying the committed address) — a response tagged with a key
different from the currently active key is dropped without touching the
shared state; and for overlapping requests on each of the two resolvers,
with the newer key set before the responses arrive, the data ends up being
the newer key's response even though the older key's response arrives
last. -/
theorem swr_only_current_key_applied :
    (∀ (δ : Type) (s : SWRState String δ) (k : String) (d : δ),
      s.activeKey ≠ some k → swrStep s (SWREvent.response k d) = s) ∧
    (∀ (q1 q2 : String) (d1 d2 : List Suggestion), q1 ≠ q2 → q2 ≠ "" →
      (swrRun ⟨none, none⟩
        [SWREvent.setKey (suggestionSWRKey q1), SWREvent.setKey (suggestionSWRKey q2),
         SWREvent.response q2 d2, SWREvent.response q1 d1]).data = some d2) ∧
    (∀ (p1 p2 : String) (a1 a2 : AddressType), p1 ≠ p2 → p2 ≠ "" →
      (swrRun ⟨none, none⟩
        [SWREvent.setKey (detailSWRKey p1), SWREvent.setKey (detailSWRKey p2),
         SWREvent.response p2 a2, SWREvent.response p1 a1]).data = some a2) := by
  refine ⟨?_, ?_, ?_⟩
  · intro δ s k d h
    simp [swrStep, h]
  · intro q1 q2 d1 d2 hne hq2
    have hk : suggestionSWRKey q2 = some q2 := by simp [suggestionSWRKey, hq2]
    simp [swrRun, List.foldl, swrStep, hk, Ne.symm hne]
  · intro p1 p2 a1 a2 hne hp2
    have hk : detailSWRKey p2 = some p2 := by simp [detailSWRKey, hp2]
    simp [swrRun, List.foldl, swrStep, hk, Ne.symm hne]

/-- C1 witness: on the suggestion resolver, a stale response for key "a"
arriving after key "b" is active is dropped; on the detail resolver, a stale
address for identifier "p1" arriving after "p2" is active is dropped; and
the out-of-order two-key traces of both resolvers commit the newer key's
data. -/
theorem swr_only_current_key_applied_witness :
    swrStep (⟨some "b", none⟩ : SWRState String (List Suggestion))
      (SWREvent.response "a" [⟨"p", "p", "t"⟩]) = ⟨some "b", none⟩ ∧
    swrStep (⟨some "p2", none⟩ : SWRState String AddressType)
      (SWREvent.response "p1" emptyAddress) = ⟨some "p2", none⟩ ∧
    (swrRun ⟨none, none⟩
      [SWREvent.setKey (suggestionSWRKey "a"), SWREvent.setKey (suggestionSWRKey "b"),
       SWREvent.response "b" ([⟨"p", "p", "t"⟩] : List Suggestion),
       SWREvent.response "a" ([] : List Suggestion)]).data = some [⟨"p", "p", "t"⟩] ∧
    (swrRun ⟨none, none⟩
      [SWREvent.setKey (detailSWRKey "p1"), SWREvent.setKey (detailSWRKey "p2"),
       SWREvent.response "p2" { emptyAddress with formattedAddress := "X, Y" },
       SWREvent.response "p1" emptyAddress]).data =
      some { emptyAddress with formattedAddress := "X, Y" } :=
  ⟨swr_only_current_key_applied.1 (List Suggestion) ⟨some "b", none⟩ "a"
     [⟨"p", "p", "t"⟩] (by decide),
   swr_only_current_key_applied.1 AddressType ⟨some "p2", none⟩ "p1"
     emptyAddress (by decide),
   swr_only_current_key_applied.2.1 "a" "b" [] [⟨"p", "p", "t"⟩] (by decide) (by decide),
   swr_only_current_key_applied.2.2 "p1" "p2" emptyAddress
     { emptyAddress with formattedAddress := "X, Y" } (by decide) (by decide)⟩

/-- C7: for a timed sequence of input values that all arrive within the
quiet period, the debouncer emits exactly one value — the last one — and
`useDebounce`'s effective delay is 500 when none is supplied. -/
theorem debounce_last_only :
    (∀ (d : Nat) (es : List (Nat × String)) (v : String),
      withinQuiet d es = true → lastValue es = some v →
      debounceEmissions d es = [v]) ∧
    jsOrDefault none = 500 := by
  constructor
  · intro d es
    induction es with
    | nil =>
      intro v _ hv
      simp [lastValue] at hv
    | cons x tail ih =>
      cases tail with
      | nil =>
        intro v _ hv
        obtain ⟨t, w⟩ := x
        simp only [lastValue, Option.some.injEq] at hv
        simp [debounceEmissions, hv]
      | cons y rest =>
        intro v hq hv
        obtain ⟨t1, v1⟩ := x
        obtain ⟨t2, v2⟩ := y
        simp only [withinQuiet, Bool.and_eq_true, decide_eq_true_eq] at hq
        obtain ⟨hlt, hq2⟩ := hq
        have hnot : ¬ (t1 + d ≤ t2) := by omega
        simp only [debounceEmissions, if_neg hnot]
        exact ih v hq2 hv
  · rfl

/-- C7 witness: the three keystrokes "1", "12", "123" inside one 500ms
window emit exactly one lookup, for "123". -/
theorem debounce_last_only_witness :
    withinQuiet 500 [(0, "1"), (100, "12"), (200, "123")] = true ∧
    lastValue [(0, "1"), (100, "12"), (200, "123")] = some "123" ∧
    debounceEmissions 500 [(0, "1"), (100, "12"), (200, "123")] = ["123"] ∧
    jsOrDefault none = 500 :=
  ⟨by decide, by decide,
   debounce_last_only.1 500 [(0, "1"), (100, "12"), (200, "123")] "123"
     (by decide) (by decide),
   debounce_last_only.2⟩

/-- Every address a single step hands to `setAddress` is the canonical empty
record or the output of `buildAddress` on one successfully fetched place
result. -/
lemma step_emit_wellformed (s : ComponentState) (e : ComponentEvent) (a : AddressType)
    (h : (step s e).2 = some a) :
    a = emptyAddress ∨
      ∃ r, fetchPlaceDetails PlacesServiceStatus.OK (some r) = Except.ok r ∧
        a = buildAddress r := by
  cases e with
  | committedInputChange v =>
    by_cases hv : v = ""
    · left
      simp [step, hv] at h
      exact h.symm
    · simp [step, hv] at h
  | committedFocus => simp [step] at h
  | clearClick =>
    left
    simp [step] at h
    exact h.symm
  | searchInputChange v => simp [step] at h
  | inputFocus => simp [step] at h
  | inputBlurTimeout => simp [step] at h
  | escapeKey => simp [step] at h
  | predictionClick sg => simp [step] at h
  | detailResolved status result =>
    right
    cases hd : detailFetcher status result with
    | ok a2 =>
      simp [step, hd] at h
      cases hf : fetchPlaceDetails status result with
      | ok r =>
        rw [detailFetcher, hf] at hd
        simp only [Except.ok.injEq] at hd
        exact ⟨r, by simp [fetchPlaceDetails], by rw [← h, ← hd]⟩
      | error e2 =>
        rw [detailFetcher, hf] at hd
        simp at hd
    | error e2 => simp [step, hd] at h
  | locationDetect o => simp [step] at h

/-- C5: along any event trace, every address ever passed to `setAddress` is
either the canonical empty record or a record built in one piece by
`buildAddress` from one successful detail resolution — no partially
populated record is ever committed. -/
theorem committed_addresses_wellformed (s : ComponentState)
    (es : List ComponentEvent) (a : AddressType)
    (h : a ∈ (runEmits s es).2) :
    a = emptyAddress ∨
      ∃ r, fetchPlaceDetails PlacesServiceStatus.OK (some r) = Except.ok r ∧
        a = buildAddress r := by
  induction es generalizing s with
  | nil => simp [runEmits] at h
  | cons e es ih =>
    simp only [runEmits] at h
    rcases List.mem_append.mp h with h1 | h2
    · have hs : (step s e).2 = some a := by
        cases ho : (step s e).2 with
        | none => rw [ho] at h1; simp [Option.toList] at h1
        | some b => rw [ho] at h1; simp [Option.toList] at h1; rw [h1]
      exact step_emit_wellformed s e a hs
    · exact ih (step s e).1 h2

/-- C5 witness: the clear-button trace commits exactly the canonical empty
record. -/
theorem committed_addresses_wellformed_witness :
    emptyAddress ∈ (runEmits ⟨emptyAddress, "query", "", false, true⟩
      [ComponentEvent.clearClick]).2 ∧
    (emptyAddress = emptyAddress ∨
      ∃ r, fetchPlaceDetails PlacesServiceStatus.OK (some r) = Except.ok r ∧
        emptyAddress = buildAddress r) :=
  ⟨by decide,
   committed_addresses_wellformed ⟨emptyAddress, "query", "", false, true⟩
     [ComponentEvent.clearClick] emptyAddress (by decide)⟩
